import Mathlib

/-
Shallow embedding of the unit-converter application (src/app.py).

Numbers are modelled by exact rationals.  A user-supplied value is a pair
of the text the UI would echo for it and its numeric content, mirroring the
fact that Python keeps one object whose str() is used for echoing and whose
float() is used for arithmetic.  A missing value is Option.none.
-/

structure Value where
  str : String
  num : ℚ
deriving DecidableEq

/-- A category entry of the CONVERSIONS table: either a linear table with a
base-unit label and an association list of unit label to scale factor, or
the temperature entry which only lists its three unit labels. -/
inductive Entry where
  | linear : String → List (String × ℚ) → Entry
  | temp : List String → Entry
deriving DecidableEq

def lengthUnits : List (String × ℚ) :=
  [("m", 1), ("km", 1000), ("cm", 0.01), ("mm", 0.001), ("mi", 1609.344),
   ("yd", 0.9144), ("ft", 0.3048), ("in", 0.0254)]

def massUnits : List (String × ℚ) :=
  [("kg", 1), ("g", 0.001), ("mg", 1e-6), ("lb", 0.45359237), ("oz", 0.0283495)]

def temperatureUnits : List String := ["°C", "°F", "K"]

def timeUnits : List (String × ℚ) :=
  [("s", 1), ("min", 60), ("h", 3600), ("day", 86400)]

def speedUnits : List (String × ℚ) :=
  [("m/s", 1), ("km/h", 1000/3600), ("mph", 1609.344/3600), ("knot", 1852/3600)]

def areaUnits : List (String × ℚ) :=
  [("m²", 1), ("cm²", 0.0001), ("mm²", 1e-6), ("km²", 1e6), ("ft²", 0.092903),
   ("in²", 0.00064516), ("acre", 4046.856), ("hectare", 10000)]

def volumeUnits : List (String × ℚ) :=
  [("L", 1), ("mL", 0.001), ("m³", 1000), ("cm³", 0.001), ("ft³", 28.3168),
   ("in³", 0.0163871), ("gal(US)", 3.78541), ("qt(US)", 0.946353)]

def energyUnits : List (String × ℚ) :=
  [("J", 1), ("kJ", 1000), ("Wh", 3600), ("kWh", 3.6e6), ("cal", 4.184), ("kcal", 4184)]

def pressureUnits : List (String × ℚ) :=
  [("Pa", 1), ("kPa", 1000), ("bar", 1e5), ("atm", 101325), ("psi", 6894.76),
   ("mmHg", 133.322)]

def dataUnits : List (String × ℚ) :=
  [("bit", 1/8), ("byte", 1), ("KB", 1024), ("MB", 1024^2), ("GB", 1024^3),
   ("TB", 1024^4)]

def angleUnits : List (String × ℚ) :=
  [("deg", 3.141592653589793/180), ("rad", 1), ("grad", 3.141592653589793/200)]

/-- The CONVERSIONS table of src/app.py, in the same insertion order. -/
def CONVERSIONS : List (String × Entry) :=
  [("Length", Entry.linear "m" lengthUnits),
   ("Mass", Entry.linear "kg" massUnits),
   ("Temperature", Entry.temp temperatureUnits),
   ("Time", Entry.linear "s" timeUnits),
   ("Speed", Entry.linear "m/s" speedUnits),
   ("Area", Entry.linear "m²" areaUnits),
   ("Volume", Entry.linear "L" volumeUnits),
   ("Energy", Entry.linear "J" energyUnits),
   ("Pressure", Entry.linear "Pa" pressureUnits),
   ("Data", Entry.linear "byte" dataUnits),
   ("Angle", Entry.linear "rad" angleUnits)]

/-- get_units of src/app.py.  The source raises KeyError on an unknown
category, modelled as none. -/
def get_units (category : String) : Option (List String) :=
  if category = "Temperature" then some temperatureUnits
  else
    match List.lookup category CONVERSIONS with
    | some (Entry.linear _ units) => some (units.map Prod.fst)
    | some (Entry.temp units) => some units
    | none => none

/-- Python round with no digits argument: nearest integer, ties to even. -/
def roundHalfEven (q : ℚ) : ℤ :=
  if q - ⌊q⌋ < 1/2 then ⌊q⌋
  else if 1/2 < q - ⌊q⌋ then ⌊q⌋ + 1
  else if ⌊q⌋ % 2 = 0 then ⌊q⌋ else ⌊q⌋ + 1

def padZeros (s : String) (k : Nat) : String :=
  String.mk (List.replicate (k - s.length) '0') ++ s

/-- Renders n / 10^6 in fixed-point notation with exactly six decimals,
as the Python format specifier .6f does for a value already rounded to six
decimal places. -/
def fmt6 (n : ℤ) : String :=
  (if n < 0 then "-" else "") ++ toString (n.natAbs / 1000000) ++ "." ++
    padZeros (toString (n.natAbs % 1000000)) 6

/-- Python str.rstrip with a single character argument. -/
def rstripChar (s : String) (c : Char) : String :=
  String.mk ((s.data.reverse.dropWhile (fun x => x == c)).reverse)

/-- The result-formatting block of convert in src/app.py: integers within
1e-9 print bare, otherwise round to six decimals and strip trailing zeros
and a trailing decimal point. -/
def fmt (result : ℚ) : String :=
  if |result - (roundHalfEven result : ℚ)| < 1/1000000000 then
    toString (roundHalfEven result)
  else
    rstripChar (rstripChar (fmt6 (roundHalfEven (result * 1000000))) '0') '.'

/-- Temperature normalisation to Celsius, from convert in src/app.py. -/
def tempToCelsius (v : ℚ) (from_unit : String) : Option ℚ :=
  if from_unit = "°C" then some v
  else if from_unit = "°F" then some ((v - 32) * 5 / 9)
  else if from_unit = "K" then some (v - 273.15)
  else none

/-- Temperature conversion out of the Celsius base, from convert in src/app.py. -/
def tempFromCelsius (base : ℚ) (to_unit : String) : Option ℚ :=
  if to_unit = "°C" then some base
  else if to_unit = "°F" then some (base * 9 / 5 + 32)
  else if to_unit = "K" then some (base + 273.15)
  else none

/-- The text of str of a Python KeyError: the missing key between quotes. -/
def keyErrorText (k : String) : String := "\x27" ++ k ++ "\x27"

/-- The convert function of src/app.py.  Python exceptions caught by the
try block (KeyError on an unknown category or unit) surface as the branch
returning the Error-prefixed string, exactly as the except clause renders
them. -/
def convert (category : String) (value : Option Value) (from_unit to_unit : String) :
    String :=
  match value with
  | none => "❌ Enter a number."
  | some v =>
    if from_unit = to_unit then
      v.str ++ " " ++ from_unit ++ " = " ++ v.str ++ " " ++ to_unit
    else if category = "Temperature" then
      match tempToCelsius v.num from_unit with
      | none => "❌ Invalid temperature unit."
      | some base =>
        match tempFromCelsius base to_unit with
        | none => "❌ Invalid temperature unit."
        | some result => v.str ++ " " ++ from_unit ++ " = " ++ fmt result ++ " " ++ to_unit
    else
      match List.lookup category CONVERSIONS with
      | some (Entry.linear _ units) =>
        match List.lookup from_unit units with
        | some sF =>
          match List.lookup to_unit units with
          | some sT =>
            v.str ++ " " ++ from_unit ++ " = " ++ fmt (v.num * sF / sT) ++ " " ++ to_unit
          | none => "❌ Error: " ++ keyErrorText to_unit
        | none => "❌ Error: " ++ keyErrorText from_unit
      | some (Entry.temp _) => "❌ Error: list indices must be integers or slices, not str"
      | none => "❌ Error: " ++ keyErrorText category

/-- Projection of the arithmetic of the linear branch of convert: the
numeric result value before formatting, or none when a lookup fails. -/
def convertNum (category : String) (v : ℚ) (from_unit to_unit : String) : Option ℚ :=
  match List.lookup category CONVERSIONS with
  | some (Entry.linear _ units) =>
    match List.lookup from_unit units with
    | some sF =>
      match List.lookup to_unit units with
      | some sT => some (v * sF / sT)
      | none => none
    | none => none
  | _ => none

/-- One history update of do_convert in src/app.py: append the result, then
pop the front element once the length exceeds 100. -/
def do_convert_step (history : List String) (res : String) : List String :=
  if (history ++ [res]).length > 100 then (history ++ [res]).drop 1
  else history ++ [res]

/-- The displayed slice of the history: the last ten entries in order. -/
def displayedHistory (history : List String) : List String :=
  history.drop (history.length - 10)

/-- The history textbox content of do_convert in src/app.py. -/
def historyText (history : List String) : String :=
  String.intercalate "\n" (displayedHistory history)

/-- The categories for which the round-trip law is stated: all except
Temperature and Data. -/
def roundTripCats : List String :=
  ["Length", "Mass", "Time", "Speed", "Area", "Volume", "Energy", "Pressure", "Angle"]

/-- A key whose lookup succeeds is present, paired with the found value. -/
lemma mem_of_lookup_eq_some {α β : Type} [BEq α] [LawfulBEq α] :
    ∀ {l : List (α × β)} {a : α} {b : β}, List.lookup a l = some b → (a, b) ∈ l := by
  intro l
  induction l with
  | nil => intro a b h; simp [List.lookup] at h
  | cons p t ih =>
    intro a b h
    obtain ⟨k, v⟩ := p
    simp only [List.lookup] at h
    cases hak : a == k with
    | true =>
      rw [hak] at h
      simp only [Option.some.injEq] at h
      subst h
      have hk : a = k := eq_of_beq hak
      subst hk
      exact List.mem_cons_self _ _
    | false =>
      rw [hak] at h
      exact List.mem_cons_of_mem _ (ih h)

unseal Rat.mul Rat.add Rat.sub Rat.inv Rat.ofScientific in
lemma table_linear_inv (cat base : String) (units : List (String × ℚ))
    (h : (cat, Entry.linear base units) ∈ CONVERSIONS) :
    List.lookup base units = some 1 ∧ ∀ p ∈ units, 0 < p.2 := by
  simp only [CONVERSIONS, List.mem_cons, List.not_mem_nil, or_false] at h
  rcases h with h|h|h|h|h|h|h|h|h|h|h <;>
    simp only [Prod.mk.injEq, Entry.linear.injEq, reduceCtorEq, false_and, and_false] at h <;>
    obtain ⟨rfl, rfl, rfl⟩ := h <;>
    exact ⟨by decide, by decide⟩

/-- A value looked up in a table whose entries are all positive is positive. -/
lemma lookup_pos_of_all_pos {units : List (String × ℚ)}
    (hpos : ∀ p ∈ units, 0 < p.2) {u : String} {s : ℚ}
    (h : List.lookup u units = some s) : 0 < s :=
  hpos (u, s) (mem_of_lookup_eq_some h)


/-- Claim C9: in the static conversion table, every non-Temperature category
has a designated base unit whose scale factor is exactly 1, and every scale
factor in every category table is positive. -/
theorem c9_base_unit_and_positive_scales (cat base : String) (units : List (String × ℚ))
    (h : (cat, Entry.linear base units) ∈ CONVERSIONS) :
    List.lookup base units = some 1 ∧ ∀ p ∈ units, 0 < p.2 :=
  table_linear_inv cat base units h

unseal Rat.mul Rat.add Rat.sub Rat.inv Rat.ofScientific in
theorem c9_witness :
    List.lookup "m" lengthUnits = some 1 ∧ ∀ p ∈ lengthUnits, 0 < p.2 :=
  c9_base_unit_and_positive_scales "Length" "m" lengthUnits (by decide)

/-- Claim C10: the identity short-circuit is checked before any category
dispatch or unit lookup, so for every non-null value and every string U the
echoed success string is returned even for unknown categories and units. -/
theorem c10_identity_short_circuit_first (category : String) (v : Value) (U : String) :
    convert category (some v) U U = v.str ++ " " ++ U ++ " = " ++ v.str ++ " " ++ U := by
  simp [convert]

/-- Claim C5: for every category of the table, every unit U that get_units
lists for it and every non-null value, convert with equal source and target
unit short-circuits and echoes the value text verbatim on both sides. -/
theorem c5_identity_echo (category : String) (us : List String)
    (_hcat : get_units category = some us) (U : String) (_hU : U ∈ us) (v : Value) :
    convert category (some v) U U = v.str ++ " " ++ U ++ " = " ++ v.str ++ " " ++ U := by
  simp [convert]

theorem c5_witness :
    convert "Length" (some (Value.mk "1.0" 1)) "m" "m" = "1.0 m = 1.0 m" :=
  c5_identity_echo "Length" (lengthUnits.map Prod.fst) rfl "m" (by decide) (Value.mk "1.0" 1)

/-- Claim C6 counterexample: with a missing value the returned string is the
error-marker-prefixed message with a trailing period, not the bare text
claimed. -/
theorem c6_counterexample : convert "Length" none "km" "m" ≠ "Enter a number" := by
  decide

/-- Claim C6 amended: for every category and every pair of units, convert
applied to a missing value returns the literal string with the error marker
and trailing period, and no lookup or arithmetic is involved. -/
theorem c6_missing_value (category fu tu : String) :
    convert category none fu tu = "❌ Enter a number." := rfl

/-- Claim C8: the history list starts empty, each request appends the result
string at the end, the front is dropped exactly when the length would exceed
100, the length never exceeds 100 after any number of requests, and the
displayed slice is a suffix holding the most recent ten entries in order. -/
theorem c8_history_invariants :
    (∀ reqs : List String, (reqs.foldl do_convert_step []).length ≤ 100)
  ∧ (∀ (h : List String) (r : String), h.length < 100 → do_convert_step h r = h ++ [r])
  ∧ (∀ (h : List String) (r : String), 100 ≤ h.length →
      do_convert_step h r = (h ++ [r]).drop 1)
  ∧ (∀ h : List String, displayedHistory h <:+ h
      ∧ (displayedHistory h).length = min 10 h.length
      ∧ historyText h = String.intercalate "\n" (displayedHistory h)) := by
  have step_le : ∀ (h : List String) (r : String), h.length ≤ 100 →
      (do_convert_step h r).length ≤ 100 := by
    intro h r hh
    unfold do_convert_step
    split
    · next hgt =>
      simp only [List.length_drop, List.length_append, List.length_singleton]
      omega
    · next hle =>
      simp only [gt_iff_lt, not_lt, List.length_append, List.length_singleton] at hle ⊢
      omega
  have fold_le : ∀ (reqs h : List String), h.length ≤ 100 →
      (reqs.foldl do_convert_step h).length ≤ 100 := by
    intro reqs
    induction reqs with
    | nil => intro h hh; simpa using hh
    | cons r t ih => intro h hh; exact ih _ (step_le h r hh)
  refine ⟨fun reqs => fold_le reqs [] (by simp), ?_, ?_, ?_⟩
  · intro h r hlt
    unfold do_convert_step
    rw [if_neg]
    simp only [gt_iff_lt, not_lt, List.length_append, List.length_singleton]
    omega
  · intro h r hge
    unfold do_convert_step
    rw [if_pos]
    simp only [gt_iff_lt, List.length_append, List.length_singleton]
    omega
  · intro h
    refine ⟨List.drop_suffix _ _, ?_, rfl⟩
    simp only [displayedHistory, List.length_drop]
    omega

theorem c8_witness : do_convert_step [] "x" = ["x"] :=
  c8_history_invariants.2.1 [] "x" (by decide)

unseal Rat.mul Rat.add Rat.sub Rat.inv Rat.ofScientific in
/-- Claim C1: for a non-Temperature category of the table and two distinct
units present in its scale table, convert computes the base value times the
source scale divided by the target scale and renders the formatted result
between the echoed value and the unit labels; in particular the Length and
Data examples hold. -/
theorem c1_linear_conversion :
    (∀ (v : Value) (category base : String) (units : List (String × ℚ))
        (fu tu : String) (sF sT : ℚ),
      category ≠ "Temperature" → fu ≠ tu →
      List.lookup category CONVERSIONS = some (Entry.linear base units) →
      List.lookup fu units = some sF →
      List.lookup tu units = some sT →
      convert category (some v) fu tu =
        v.str ++ " " ++ fu ++ " = " ++ fmt (v.num * sF / sT) ++ " " ++ tu)
  ∧ convert "Length" (some (Value.mk "1" 1)) "km" "m" = "1 km = 1000 m"
  ∧ convert "Data" (some (Value.mk "1" 1)) "byte" "bit" = "1 byte = 8 bit" := by
  refine ⟨?_, by decide, by decide⟩
  intro v category base units fu tu sF sT hcat hne hlook hfu htu
  simp only [convert, if_neg hne, if_neg hcat, hlook, hfu, htu]

unseal Rat.mul Rat.add Rat.sub Rat.inv Rat.ofScientific in
theorem c1_witness :
    convert "Mass" (some (Value.mk "5" 5)) "g" "kg" = "5 g = 0.005 kg" := by
  have h := c1_linear_conversion.1 (Value.mk "5" 5) "Mass" "kg" massUnits "g" "kg"
    0.001 1 (by decide) (by decide) rfl rfl rfl
  rw [h]
  decide

unseal Rat.mul Rat.add Rat.sub Rat.inv Rat.ofScientific in
/-- Claim C2: for the Temperature category convert first normalises the
input to Celsius (identity from Celsius, the affine formulas from
Fahrenheit and Kelvin) and then converts the Celsius base to the target
unit, rendering the result; the three example conversions hold. -/
theorem c2_temperature :
    (∀ x : ℚ, tempToCelsius x "°C" = some x
      ∧ tempToCelsius x "°F" = some ((x - 32) * 5 / 9)
      ∧ tempToCelsius x "K" = some (x - 273.15)
      ∧ tempFromCelsius x "°C" = some x
      ∧ tempFromCelsius x "°F" = some (x * 9 / 5 + 32)
      ∧ tempFromCelsius x "K" = some (x + 273.15))
  ∧ (∀ (v : Value) (fu tu : String) (base r : ℚ), fu ≠ tu →
      tempToCelsius v.num fu = some base → tempFromCelsius base tu = some r →
      convert "Temperature" (some v) fu tu =
        v.str ++ " " ++ fu ++ " = " ++ fmt r ++ " " ++ tu)
  ∧ convert "Temperature" (some (Value.mk "0" 0)) "°C" "°F" = "0 °C = 32 °F"
  ∧ convert "Temperature" (some (Value.mk "32" 32)) "°F" "°C" = "32 °F = 0 °C"
  ∧ convert "Temperature" (some (Value.mk "0" 0)) "°C" "K" = "0 °C = 273.15 K" := by
  refine ⟨?_, ?_, by decide, by decide, by decide⟩
  · intro x
    exact ⟨rfl, rfl, rfl, rfl, rfl, rfl⟩
  · intro v fu tu base r hne hbase hres
    simp only [convert, if_neg hne, hbase, hres]
    exact if_pos trivial

unseal Rat.mul Rat.add Rat.sub Rat.inv Rat.ofScientific in
theorem c2_witness :
    convert "Temperature" (some (Value.mk "100" 100)) "°C" "°F" = "100 °C = 212 °F" := by
  have h := c2_temperature.2.1 (Value.mk "100" 100) "°C" "°F" 100 (100 * 9 / 5 + 32)
    (by decide) rfl rfl
  rw [h]
  decide

/-- Any integer within strictly half a unit of a rational is its rounding. -/
lemma roundHalfEven_eq_of_abs_lt (r : ℚ) (n : ℤ) (h : |r - (n : ℚ)| < 1/2) :
    roundHalfEven r = n := by
  rw [abs_sub_lt_iff] at h
  obtain ⟨h1, h2⟩ := h
  unfold roundHalfEven
  rcases le_or_lt (n : ℚ) r with hle | hlt
  · have hf : ⌊r⌋ = n := by
      rw [Int.floor_eq_iff]
      exact ⟨hle, by linarith⟩
    rw [hf, if_pos h1]
  · have hf : ⌊r⌋ = n - 1 := by
      rw [Int.floor_eq_iff]
      constructor
      · push_cast
        linarith
      · push_cast
        linarith
    rw [hf, if_neg (not_lt.mpr (by push_cast; linarith)),
      if_pos (by push_cast; linarith)]
    omega

unseal Rat.mul Rat.add Rat.sub Rat.inv Rat.ofScientific in
/-- Claim C3: a result within 1e-9 of its nearest integer renders as that
integer with no decimal point; otherwise it is rounded to six decimal
places, trailing zeros are stripped and a trailing decimal point left by
the stripping is stripped too; 2 renders as 2, 5/2 as 2.5 and 1/3 as
0.333333. -/
theorem c3_result_formatting :
    (∀ (r : ℚ) (n : ℤ), |r - (n : ℚ)| < 1/1000000000 → fmt r = toString n)
  ∧ (∀ r : ℚ, ¬ |r - (roundHalfEven r : ℚ)| < 1/1000000000 →
      fmt r = rstripChar (rstripChar (fmt6 (roundHalfEven (r * 1000000))) '0') '.')
  ∧ fmt 2 = "2" ∧ fmt (5/2) = "2.5" ∧ fmt (1/3) = "0.333333"
  ∧ (∀ (v : Value) (category base : String) (units : List (String × ℚ))
        (fu tu : String) (sF sT : ℚ),
      category ≠ "Temperature" → fu ≠ tu →
      List.lookup category CONVERSIONS = some (Entry.linear base units) →
      List.lookup fu units = some sF → List.lookup tu units = some sT →
      convert category (some v) fu tu =
        v.str ++ " " ++ fu ++ " = " ++ fmt (v.num * sF / sT) ++ " " ++ tu)
  ∧ (∀ (v : Value) (fu tu : String) (base r : ℚ), fu ≠ tu →
      tempToCelsius v.num fu = some base → tempFromCelsius base tu = some r →
      convert "Temperature" (some v) fu tu =
        v.str ++ " " ++ fu ++ " = " ++ fmt r ++ " " ++ tu) := by
  refine ⟨?_, ?_, by decide, by decide, by decide, ?_, ?_⟩
  · intro r n h
    have hn : roundHalfEven r = n :=
      roundHalfEven_eq_of_abs_lt r n (lt_trans h (by norm_num))
    unfold fmt
    rw [hn, if_pos h]
  · intro r h
    unfold fmt
    rw [if_neg h]
  · intro v category base units fu tu sF sT hcat hne hlook hfu htu
    simp only [convert, if_neg hne, if_neg hcat, hlook, hfu, htu]
  · intro v fu tu base r hne hbase hres
    simp only [convert, if_neg hne, hbase, hres]
    exact if_pos trivial

unseal Rat.mul Rat.add Rat.sub Rat.inv Rat.ofScientific in
theorem c3_witness : fmt (2 + 1/10000000000) = "2" := by
  have h := c3_result_formatting.1 (2 + 1/10000000000) 2 (by decide)
  rw [h]
  decide

/-- Claim C7 counterexample: the invalid-temperature return value carries
the error marker and a trailing period, so it differs from the bare text
the claim states. -/
theorem c7_counterexample :
    convert "Temperature" (some (Value.mk "1" 1)) "X" "K" ≠ "Invalid temperature unit" := by
  decide

/-- Claim C7 amended: convert always returns a string; with category
Temperature and an unrecognised source or target unit it returns the
invalid-temperature message prefixed by the error marker and ending in a
period, and a failed lookup in the linear branch returns the KeyError
description prefixed by the error marker and the word Error. -/
theorem c7_totality_and_errors :
    (∀ (category : String) (value : Option Value) (fu tu : String),
      ∃ s, convert category value fu tu = s)
  ∧ (∀ (v : Value) (fu tu : String), fu ≠ tu → tempToCelsius v.num fu = none →
      convert "Temperature" (some v) fu tu = "❌ Invalid temperature unit.")
  ∧ (∀ (v : Value) (fu tu : String) (base : ℚ), fu ≠ tu →
      tempToCelsius v.num fu = some base → tempFromCelsius base tu = none →
      convert "Temperature" (some v) fu tu = "❌ Invalid temperature unit.")
  ∧ (∀ (v : Value) (category fu tu : String), category ≠ "Temperature" → fu ≠ tu →
      List.lookup category CONVERSIONS = none →
      convert category (some v) fu tu = "❌ Error: " ++ keyErrorText category)
  ∧ (∀ (v : Value) (category base : String) (units : List (String × ℚ))
        (fu tu : String),
      category ≠ "Temperature" → fu ≠ tu →
      List.lookup category CONVERSIONS = some (Entry.linear base units) →
      List.lookup fu units = none →
      convert category (some v) fu tu = "❌ Error: " ++ keyErrorText fu)
  ∧ (∀ (v : Value) (category base : String) (units : List (String × ℚ))
        (fu tu : String) (sF : ℚ),
      category ≠ "Temperature" → fu ≠ tu →
      List.lookup category CONVERSIONS = some (Entry.linear base units) →
      List.lookup fu units = some sF → List.lookup tu units = none →
      convert category (some v) fu tu = "❌ Error: " ++ keyErrorText tu) := by
  refine ⟨fun category value fu tu => ⟨_, rfl⟩, ?_, ?_, ?_, ?_, ?_⟩
  · intro v fu tu hne hfu
    simp only [convert, if_neg hne, hfu]
    exact if_pos trivial
  · intro v fu tu base hne hbase hres
    simp only [convert, if_neg hne, hbase, hres]
    exact if_pos trivial
  · intro v category fu tu hcat hne hlook
    simp only [convert, if_neg hne, if_neg hcat, hlook]
  · intro v category base units fu tu hcat hne hlook hfu
    simp only [convert, if_neg hne, if_neg hcat, hlook, hfu]
  · intro v category base units fu tu sF hcat hne hlook hfu htu
    simp only [convert, if_neg hne, if_neg hcat, hlook, hfu, htu]

theorem c7_witness :
    convert "Temperature" (some (Value.mk "1" 1)) "X" "K" = "❌ Invalid temperature unit." :=
  c7_totality_and_errors.2.1 (Value.mk "1" 1) "X" "K" (by decide) (by decide)

/-- Claim C4: for categories other than Temperature and Data, converting a
value from unit A to unit B and the numeric result back from B to A
returns the original value exactly, hence within a relative error of 1e-6;
with equal units the short-circuit echoes the value exactly. -/
theorem c4_round_trip :
    (∀ category : String, category ∈ roundTripCats →
      ∀ (base : String) (units : List (String × ℚ)),
        List.lookup category CONVERSIONS = some (Entry.linear base units) →
        ∀ (A B : String) (sA sB v : ℚ),
          List.lookup A units = some sA → List.lookup B units = some sB →
          convertNum category v A B = some (v * sA / sB)
          ∧ convertNum category (v * sA / sB) B A = some v
          ∧ |v * sA / sB * sB / sA - v| ≤ 1/1000000 * |v|)
  ∧ (∀ (category U : String) (v : Value),
      convert category (some v) U U = v.str ++ " " ++ U ++ " = " ++ v.str ++ " " ++ U) := by
  constructor
  · intro category _hcat base units hlook A B sA sB v hA hB
    have hmem : (category, Entry.linear base units) ∈ CONVERSIONS :=
      mem_of_lookup_eq_some hlook
    have hpos := (table_linear_inv category base units hmem).2
    have hA0 : sA ≠ 0 := ne_of_gt (lookup_pos_of_all_pos hpos hA)
    have hB0 : sB ≠ 0 := ne_of_gt (lookup_pos_of_all_pos hpos hB)
    have hrt : v * sA / sB * sB / sA = v := by
      field_simp
    refine ⟨?_, ?_, ?_⟩
    · simp only [convertNum, hlook, hA, hB]
    · simp only [convertNum, hlook, hA, hB, Option.some.injEq]
      exact hrt
    · rw [hrt]
      simp only [sub_self, abs_zero]
      positivity
  · intro category U v
    simp [convert]

theorem c4_witness :
    convertNum "Length" 3 "km" "cm" = some (3 * 1000 / 0.01)
    ∧ convertNum "Length" (3 * 1000 / 0.01) "cm" "km" = some 3 := by
  have h := c4_round_trip.1 "Length" (by decide) "m" lengthUnits rfl "km" "cm"
    1000 0.01 3 rfl rfl
  exact ⟨h.1, h.2.1⟩
